import Mathlib

/-!
Shallow embedding of `Fireworks/Geometry/python/dumpFWRecoGeometry_cfg.py`:
a CMSSW configuration script that selects a geometry scenario by tag,
loads the corresponding framework modules, and wires a one-event dump
pipeline in either TTree or TGeo format.
-/

namespace DumpFWRecoGeometryCfg

/-- Modelled from the spec: `FWCore.Utilities.Enumerate` is framework code not
included under the sources.  Per the spec the scenario tags form "a fixed,
closed set of string identifiers"; `Enumerate` records the whitespace-separated
names of its argument as keys, each key's value being the key itself. -/
structure Enumerate where
  keys : List String
deriving DecidableEq

/-- Modelled from the spec: `Enumerate.valueForKey k` returns the value stored
for a valid key (the key string itself), and nothing otherwise. -/
def Enumerate.valueForKey (e : Enumerate) (k : String) : Option String :=
  if k ∈ e.keys then some k else none

/-- `varType = Enumerate ("Run1 2015 2019 PhaseIPixel SLHCDB SLHC")`
(line 6 of the source): its keys are the six scenario tags, in order. -/
def varType : Enumerate :=
  ⟨["Run1", "2015", "2019", "PhaseIPixel", "SLHCDB", "SLHC"]⟩

/-- The set of recognized scenario tags, i.e. the keys of `varType`. -/
def knownTags : List String := varType.keys

/-- How the `GlobalTag` of the process has been set. -/
inductive GlobalTagSetting where
  /-- `process.GlobalTag.globaltag` never assigned. -/
  | unset
  /-- `process.GlobalTag.globaltag = autoCond['mc']` (the framework's
  auto-conditions entry for MC, an external constant). -/
  | autoCondMC
  /-- `process.GlobalTag = GlobalTag(process.GlobalTag, label, '')`
  with an `auto:` label. -/
  | autoLabel (label : String)
  /-- `process.GlobalTag.globaltag = t` with an explicit tag string. -/
  | explicitTag (t : String)
deriving DecidableEq

/-- One `cms.PSet` entry of `process.GlobalTag.toGet` (record, tag, connect). -/
structure CondRecord where
  record : String
  tag : String
  connect : String
deriving DecidableEq

/-- The `process.dump` analyzer module. -/
inductive DumpAnalyzer where
  /-- `cms.EDAnalyzer("DumpFWTGeoRecoGeometry")`: no parameters. -/
  | tgeoDump
  /-- `cms.EDAnalyzer("DumpFWRecoGeometry", level = ..., tagInfo = ...)`. -/
  | recoDump (level : Int) (tagInfo : String)
deriving DecidableEq

/-- The job configuration object (`cms.Process`) as this script populates it:
the fields record exactly the attachments the script performs. -/
structure ProcessConfig where
  /-- The process name, `"DUMP"`. -/
  name : String
  /-- `process.source`: the source type string, once assigned. -/
  sourceType : Option String
  /-- `process.maxEvents.input`, once assigned. -/
  maxEventsInput : Option Int
  /-- Module names passed to `process.load`, in call order. -/
  loaded : List String
  /-- The global-tag setting. -/
  globaltag : GlobalTagSetting
  /-- `process.GlobalTag.toGet`, a list of condition records. -/
  toGet : List CondRecord
  /-- `process.trackerSLHCGeometry.applyAlignment`, once assigned. -/
  trackerSLHCApplyAlignment : Option Bool
  /-- ES producer module types passed to `process.add_`. -/
  esProducers : List String
  /-- The `process.dump` analyzer, once assigned. -/
  dump : Option DumpAnalyzer
  /-- `process.p`: the path, as the list of module labels it contains. -/
  p : Option (List String)
deriving DecidableEq

/-- What `help()` leaves behind: the lines printed to standard output and the
process exit status (`exit(1)`, line 17 of the source). -/
structure ExitInfo where
  printed : List String
  code : Nat
deriving DecidableEq

/-- The usage text printed by `help()` (lines 9-16 of the source); the fourth
line renders `varType.keys()`. -/
def helpPrinted : List String :=
  [ "Usage: cmsRun loadConditions.py  tag=TAG ",
    "   tag=tagname",
    "       indentify geometry condition database tag",
    "       " ++ String.intercalate " " varType.keys,
    "",
    "   format=formatname",
    "       dump in plain TTree or in TGeo format, default is TTree",
    "" ]

/-- `help()`: prints the usage text to standard output and exits with status 1. -/
def helpExit : ExitInfo := { printed := helpPrinted, code := 1 }

/-- Name of the conditions module loaded unconditionally at the top of
`geoLoad` (line 20 of the source). -/
def frontierModule : String :=
  "Configuration.StandardSequences.FrontierConditions_GlobalTag_cff"

/-- `geoLoad(score)` (lines 19-72 of the source): mutates the process
configuration according to the scenario tag, and returns `some helpExit` in
the second component when the error path (`help()`, printing usage and
exiting with status 1) is taken.  The first component is the state of the
configuration when `geoLoad` finishes or the process exits. -/
def geoLoad (score : String) (process : ProcessConfig) :
    ProcessConfig × Option ExitInfo :=
  let process :=
    { process with loaded := process.loaded ++ [frontierModule] }
  if score = "Run1" then
    ({ process with
        globaltag := .autoCondMC,
        loaded := process.loaded ++
          ["Configuration.StandardSequences.GeometryDB_cff",
           "Configuration.StandardSequences.Reconstruction_cff"] }, none)
  else if score = "2015" then
    ({ process with
        globaltag := .autoCondMC,
        loaded := process.loaded ++
          ["Configuration.Geometry.GeometryExtended2015Reco_cff"] }, none)
  else if score = "2019" then
    ({ process with
        globaltag := .autoLabel "auto:upgrade2019",
        loaded := process.loaded ++
          ["Configuration.Geometry.GeometryExtended2019Reco_cff"] }, none)
  else if score = "PhaseIPixel" then
    ({ process with
        globaltag := .autoLabel "auto:mc",
        loaded := process.loaded ++
          ["Configuration.Geometry.GeometryExtendedPhaseIPixelReco_cff"] }, none)
  else if some score = varType.valueForKey "SLHCDB" then
    ({ process with
        globaltag := .explicitTag "DESIGN42_V17::All",
        loaded := process.loaded ++
          ["Configuration.StandardSequences.GeometryDB_cff",
           "Configuration.StandardSequences.Reconstruction_cff"],
        toGet :=
          [ ⟨"GeometryFileRcd",
             "XMLFILE_Geometry_428SLHCYV0_Phase1_R30F12_HCal_Ideal_mc",
             "frontier://FrontierProd/CMS_COND_42X_GEOMETRY"⟩,
            ⟨"IdealGeometryRecord",
             "TKRECO_Geometry_428SLHCYV0",
             "frontier://FrontierProd/CMS_COND_42X_GEOMETRY"⟩,
            ⟨"PGeometricDetExtraRcd",
             "TKExtra_Geometry_428SLHCYV0",
             "frontier://FrontierProd/CMS_COND_42X_GEOMETRY"⟩ ] }, none)
  else if some score = varType.valueForKey "SLHC" then
    ({ process with
        globaltag := .autoCondMC,
        loaded := process.loaded ++
          ["Configuration.Geometry.GeometrySLHCSimIdeal_cff",
           "Configuration.Geometry.GeometrySLHCReco_cff",
           "Configuration.StandardSequences.Reconstruction_cff"],
        trackerSLHCApplyAlignment := some false }, none)
  else
    (process, some helpExit)

/-- Multiplicity of a registered option (`VarParsing.multiplicity`). -/
inductive Multiplicity where
  | singleton
  | list
deriving DecidableEq

/-- Value type of a registered option (`VarParsing.varType`). -/
inductive OptionKind where
  | stringKind
  | intKind
  | boolKind
  | floatKind
deriving DecidableEq

/-- One option registered on a `VarParsing` object. -/
structure RegisteredOption where
  name : String
  defaultValue : String
  mult : Multiplicity
  kind : OptionKind
  info : String
deriving DecidableEq

/-- The `tag` option registration (lines 79-83 of the source). -/
def tagOption : RegisteredOption :=
  { name := "tag",
    defaultValue := "2015",
    mult := .singleton,
    kind := .stringKind,
    info := "info about geometry database conditions" }

/-- The `format` option registration (lines 86-90 of the source). -/
def formatOption : RegisteredOption :=
  { name := "format",
    defaultValue := "TTree",
    mult := .singleton,
    kind := .stringKind,
    info := "write a idToGeo map or make TGeo geometry" }

/-- Modelled from the spec: `FWCore.ParameterSet.VarParsing` is framework code
not included under the sources.  Per the spec, arguments arrive as CLI-style
`key=value` pairs and an option not supplied on the command line keeps its
registered default value. -/
def optionValue (o : RegisteredOption) (args : List (String × String)) :
    String :=
  match args.lookup o.name with
  | some v => v
  | none => o.defaultValue

/-- The process as built before `geoLoad` runs (lines 97-99 of the source):
`cms.Process("DUMP")` with an `EmptySource` and `maxEvents.input = 1`. -/
def initProcess : ProcessConfig :=
  { name := "DUMP",
    sourceType := some "EmptySource",
    maxEventsInput := some 1,
    loaded := [],
    globaltag := .unset,
    toGet := [],
    trackerSLHCApplyAlignment := none,
    esProducers := [],
    dump := none,
    p := none }

/-- The format dispatch (lines 106-114 of the source): `"TGeo"` attaches the
`FWTGeoRecoGeometryESProducer` with the parameterless `DumpFWTGeoRecoGeometry`
analyzer; any other value attaches the `FWRecoGeometryESProducer` with the
`DumpFWRecoGeometry` analyzer carrying `level = 1` and `tagInfo = options.tag`. -/
def outputWiring (fmt tag : String) (process : ProcessConfig) : ProcessConfig :=
  if fmt = "TGeo" then
    { process with
        esProducers := process.esProducers ++ ["FWTGeoRecoGeometryESProducer"],
        dump := some .tgeoDump }
  else
    { process with
        esProducers := process.esProducers ++ ["FWRecoGeometryESProducer"],
        dump := some (.recoDump 1 tag) }

/-- The whole script as a function of the two option values (lines 97-116 of
the source): build the initial process, run `geoLoad` (stopping there when it
exits), then wire the format-selected modules and the path `p` containing the
single `dump` module. -/
def scriptRun (tag fmt : String) : ProcessConfig × Option ExitInfo :=
  match geoLoad tag initProcess with
  | (c, some e) => (c, some e)
  | (c, none) =>
      let c := outputWiring fmt tag c
      ({ c with p := some ["dump"] }, none)

end DumpFWRecoGeometryCfg

namespace DumpFWRecoGeometryCfg

/-! Theorems about the embedded script. -/

/-- C1: `geoLoad` takes the error path (printing usage help and terminating)
if and only if the supplied tag is not one of the six recognized scenario
tags; for every recognized tag it completes without invoking help/exit. -/
theorem geoLoad_help_iff (score : String) (c : ProcessConfig) :
    ((geoLoad score c).2).isSome ↔ score ∉ knownTags := by
  unfold geoLoad
  split_ifs with h1 h2 h3 h4 h5 h6 <;>
    simp_all [knownTags, varType, Enumerate.valueForKey]

/-- C2: for every tag outside the recognized set, the script prints the usage
message to standard output and terminates the process with exit status 1. -/
theorem geoLoad_unrecognized_exit (score : String) (c : ProcessConfig)
    (h : score ∉ knownTags) :
    (geoLoad score c).2 = some { printed := helpPrinted, code := 1 } := by
  unfold geoLoad
  split_ifs with h1 h2 h3 h4 h5 h6 <;>
    simp_all [knownTags, varType, Enumerate.valueForKey, helpExit]

/-- Witness for C2 at the concrete unrecognized tag `"bogus"`. -/
theorem geoLoad_unrecognized_exit_witness :
    (geoLoad "bogus" initProcess).2 = some { printed := helpPrinted, code := 1 } :=
  geoLoad_unrecognized_exit "bogus" initProcess (by decide)

/-- C3 counterexample: at the unrecognized tag `"bogus"` the configuration at
the error point is NOT unchanged: `geoLoad` has already attached a module
reference (the unconditional `FrontierConditions_GlobalTag_cff` load). -/
theorem geoLoad_error_mutates :
    "bogus" ∉ knownTags ∧ (geoLoad "bogus" initProcess).1 ≠ initProcess := by
  decide

/-- C3 amended: for every unrecognized tag, the configuration at the error
point differs from its state on entry exactly by the one unconditional load of
`Configuration.StandardSequences.FrontierConditions_GlobalTag_cff`; no global
tag, condition record, producer, analyzer or path has been attached. -/
theorem geoLoad_error_config (score : String) (c : ProcessConfig)
    (h : score ∉ knownTags) :
    (geoLoad score c).1 = { c with loaded := c.loaded ++ [frontierModule] } := by
  unfold geoLoad
  split_ifs with h1 h2 h3 h4 h5 h6 <;>
    simp_all [knownTags, varType, Enumerate.valueForKey]

/-- Witness for the amended C3 at the concrete unrecognized tag `"bogus"`. -/
theorem geoLoad_error_config_witness :
    (geoLoad "bogus" initProcess).1 =
      { initProcess with loaded := initProcess.loaded ++ [frontierModule] } :=
  geoLoad_error_config "bogus" initProcess (by decide)

/-- C4: for every format value exactly one of the two producer/analyzer pairs
is attached: `"TGeo"` attaches `FWTGeoRecoGeometryESProducer` with
`DumpFWTGeoRecoGeometry`, and every other value attaches
`FWRecoGeometryESProducer` with `DumpFWRecoGeometry`; never both or neither. -/
theorem outputWiring_dispatch (fmt tag : String) (c : ProcessConfig) :
    (fmt = "TGeo" ∧
       outputWiring fmt tag c =
         { c with
             esProducers := c.esProducers ++ ["FWTGeoRecoGeometryESProducer"],
             dump := some DumpAnalyzer.tgeoDump }) ∨
    (fmt ≠ "TGeo" ∧
       outputWiring fmt tag c =
         { c with
             esProducers := c.esProducers ++ ["FWRecoGeometryESProducer"],
             dump := some (DumpAnalyzer.recoDump 1 tag) }) := by
  by_cases h : fmt = "TGeo"
  · exact Or.inl ⟨h, by simp [outputWiring, h]⟩
  · exact Or.inr ⟨h, by simp [outputWiring, h]⟩

/-- C5: with no `tag` argument the tag option takes its default `"2015"`, and
with no `format` argument the format option takes its default `"TTree"`; both
are registered as singleton string options. -/
theorem options_defaults (args : List (String × String))
    (htag : args.lookup "tag" = none) (hfmt : args.lookup "format" = none) :
    optionValue tagOption args = "2015" ∧
    optionValue formatOption args = "TTree" ∧
    tagOption.mult = Multiplicity.singleton ∧
    tagOption.kind = OptionKind.stringKind ∧
    formatOption.mult = Multiplicity.singleton ∧
    formatOption.kind = OptionKind.stringKind := by
  simp [optionValue, tagOption, formatOption, htag, hfmt]

/-- Witness for C5 at the concrete empty argument list. -/
theorem options_defaults_witness :
    optionValue tagOption [] = "2015" ∧
    optionValue formatOption [] = "TTree" ∧
    tagOption.mult = Multiplicity.singleton ∧
    tagOption.kind = OptionKind.stringKind ∧
    formatOption.mult = Multiplicity.singleton ∧
    formatOption.kind = OptionKind.stringKind :=
  options_defaults [] rfl rfl

/-- C6: each of the six recognized tags selects its documented module set and
global tag, including the three `toGet` condition records of `"SLHCDB"` and
the `applyAlignment = False` setting of `"SLHC"`. -/
theorem geoLoad_tag_effects :
    ((geoLoad "Run1" initProcess).1.globaltag = GlobalTagSetting.autoCondMC ∧
     (geoLoad "Run1" initProcess).1.loaded =
       [frontierModule,
        "Configuration.StandardSequences.GeometryDB_cff",
        "Configuration.StandardSequences.Reconstruction_cff"]) ∧
    ((geoLoad "2015" initProcess).1.globaltag = GlobalTagSetting.autoCondMC ∧
     (geoLoad "2015" initProcess).1.loaded =
       [frontierModule,
        "Configuration.Geometry.GeometryExtended2015Reco_cff"]) ∧
    ((geoLoad "2019" initProcess).1.globaltag =
       GlobalTagSetting.autoLabel "auto:upgrade2019" ∧
     (geoLoad "2019" initProcess).1.loaded =
       [frontierModule,
        "Configuration.Geometry.GeometryExtended2019Reco_cff"]) ∧
    ((geoLoad "PhaseIPixel" initProcess).1.globaltag =
       GlobalTagSetting.autoLabel "auto:mc" ∧
     (geoLoad "PhaseIPixel" initProcess).1.loaded =
       [frontierModule,
        "Configuration.Geometry.GeometryExtendedPhaseIPixelReco_cff"]) ∧
    ((geoLoad "SLHCDB" initProcess).1.globaltag =
       GlobalTagSetting.explicitTag "DESIGN42_V17::All" ∧
     (geoLoad "SLHCDB" initProcess).1.loaded =
       [frontierModule,
        "Configuration.StandardSequences.GeometryDB_cff",
        "Configuration.StandardSequences.Reconstruction_cff"] ∧
     (geoLoad "SLHCDB" initProcess).1.toGet.map CondRecord.record =
       ["GeometryFileRcd", "IdealGeometryRecord", "PGeometricDetExtraRcd"]) ∧
    ((geoLoad "SLHC" initProcess).1.globaltag = GlobalTagSetting.autoCondMC ∧
     (geoLoad "SLHC" initProcess).1.loaded =
       [frontierModule,
        "Configuration.Geometry.GeometrySLHCSimIdeal_cff",
        "Configuration.Geometry.GeometrySLHCReco_cff",
        "Configuration.StandardSequences.Reconstruction_cff"] ∧
     (geoLoad "SLHC" initProcess).1.trackerSLHCApplyAlignment = some false) := by
  decide

/-- C7: for every recognized tag and every format value, the configuration at
hand-off describes a one-event pipeline: no exit was taken, the source is an
`EmptySource`, `maxEvents.input` is 1, and the path `p` contains exactly the
`dump` module. -/
theorem scriptRun_pipeline (tag fmt : String) (h : tag ∈ knownTags) :
    (scriptRun tag fmt).2 = none ∧
    (scriptRun tag fmt).1.sourceType = some "EmptySource" ∧
    (scriptRun tag fmt).1.maxEventsInput = some 1 ∧
    (scriptRun tag fmt).1.p = some ["dump"] := by
  simp only [knownTags, varType, List.mem_cons, List.not_mem_nil, or_false] at h
  rcases h with h | h | h | h | h | h <;> subst h <;>
    by_cases hf : fmt = "TGeo" <;>
      simp [scriptRun, geoLoad, outputWiring, varType, Enumerate.valueForKey,
        initProcess, hf]

/-- Witness for C7 at the concrete pair `("2015", "TTree")`. -/
theorem scriptRun_pipeline_witness :
    (scriptRun "2015" "TTree").2 = none ∧
    (scriptRun "2015" "TTree").1.sourceType = some "EmptySource" ∧
    (scriptRun "2015" "TTree").1.maxEventsInput = some 1 ∧
    (scriptRun "2015" "TTree").1.p = some ["dump"] :=
  scriptRun_pipeline "2015" "TTree" (by decide)

/-- C8: `geoLoad` loads `FrontierConditions_GlobalTag_cff` unconditionally,
before inspecting the tag, so it is attached for every tag value, recognized
or not. -/
theorem geoLoad_frontier_always (score : String) (c : ProcessConfig) :
    frontierModule ∈ (geoLoad score c).1.loaded := by
  unfold geoLoad
  split_ifs <;> simp

/-- C9: the tag is recorded in the analyzer parameters only on the default
path: every non-`"TGeo"` format yields `DumpFWRecoGeometry` with `level = 1`
and `tagInfo` equal to the tag, while `"TGeo"` yields the parameterless
`DumpFWTGeoRecoGeometry`. -/
theorem dump_tag_recording (fmt tag : String) (c : ProcessConfig) :
    (fmt = "TGeo" ∧ (outputWiring fmt tag c).dump = some DumpAnalyzer.tgeoDump) ∨
    (fmt ≠ "TGeo" ∧
       (outputWiring fmt tag c).dump = some (DumpAnalyzer.recoDump 1 tag)) := by
  by_cases h : fmt = "TGeo"
  · exact Or.inl ⟨h, by simp [outputWiring, h]⟩
  · exact Or.inr ⟨h, by simp [outputWiring, h]⟩

/-- C10: the script is deterministic in its two option values: two runs with
the same `(tag, format)` pair produce identical configurations and exit
behaviour. -/
theorem scriptRun_deterministic (t1 f1 t2 f2 : String)
    (ht : t1 = t2) (hf : f1 = f2) :
    scriptRun t1 f1 = scriptRun t2 f2 := by
  subst ht; subst hf; rfl

/-- Witness for C10 at the concrete pair `("2015", "TTree")`. -/
theorem scriptRun_deterministic_witness :
    scriptRun "2015" "TTree" = scriptRun "2015" "TTree" :=
  scriptRun_deterministic "2015" "TTree" "2015" "TTree" rfl rfl

end DumpFWRecoGeometryCfg
